import Mathlib

/-!
Verification of the Contoso customer-service tool-call data-access layer
(`mcp/mcp_server.py`): a shallow embedding of the five tool handlers over an
explicit relational store, with theorems settling the specified properties.

Monetary amounts are modelled as rationals; SQLite rows become Lean
structures; each handler becomes a pure function of the store state
(`create_support_ticket` additionally returns the post-state).  Raised
`ValueError`s become an explicit error type carrying the same message text.
-/

/-! ## Store rows (the relational tables) -/

/-- A row of the `Customers` table, as selected by the handlers. -/
structure CustomerRow where
  customer_id : Int
  first_name : String
  last_name : String
  email : String
  phone : Option String
  loyalty_level : String
deriving Repr, DecidableEq

/-- A row of the `Subscriptions` table (the columns the handlers touch). -/
structure SubscriptionRow where
  subscription_id : Int
  customer_id : Int
deriving Repr, DecidableEq

/-- A row of the `Invoices` table (the columns the handlers touch). -/
structure InvoiceRow where
  invoice_id : Int
  subscription_id : Int
  amount : ℚ
  due_date : String
deriving Repr, DecidableEq

/-- A row of the `Payments` table (the columns the handlers touch). -/
structure PaymentRow where
  invoice_id : Int
  amount : ℚ
  status : String
deriving Repr, DecidableEq

/-- A row of the `SupportTickets` table, with every column the insert sets. -/
structure TicketRow where
  ticket_id : Int
  customer_id : Int
  subscription_id : Option Int
  category : String
  opened_at : String
  closed_at : Option String
  status : String
  priority : String
  subject : String
  description : String
  cs_agent : String
deriving Repr, DecidableEq

/-- The relational store: the five tables, each a list of rows in the
store's natural row order. -/
structure Store where
  customers : List CustomerRow
  subscriptions : List SubscriptionRow
  invoices : List InvoiceRow
  payments : List PaymentRow
  tickets : List TicketRow
deriving Repr, DecidableEq

/-! ## Record models (the pydantic shapes returned to the caller) -/

/-- The `Customer` record model; its fields coincide with the selected
columns of `CustomerRow`, so the row type is reused directly. -/
abbrev Customer := CustomerRow

/-- One entry of `BillingSummary.invoices`, mirroring the dict built in
`get_billing_summary`. -/
structure InvoiceEntry where
  invoice_id : Int
  amount : ℚ
  paid : ℚ
  outstanding : ℚ
  due_date : String
deriving Repr, DecidableEq

/-- The `BillingSummary` record model. -/
structure BillingSummary where
  customer_id : Int
  total_due : ℚ
  invoices : List InvoiceEntry
deriving Repr, DecidableEq

/-- The `SupportTicket` record model (the eight selected columns). -/
structure SupportTicket where
  ticket_id : Int
  customer_id : Int
  subject : String
  description : String
  status : String
  priority : String
  opened_at : String
  closed_at : Option String
deriving Repr, DecidableEq

/-- Projection of a stored ticket row onto the `SupportTicket` model,
matching the handlers' eight-column SELECT. -/
def TicketRow.toTicket (t : TicketRow) : SupportTicket :=
  { ticket_id := t.ticket_id
    customer_id := t.customer_id
    subject := t.subject
    description := t.description
    status := t.status
    priority := t.priority
    opened_at := t.opened_at
    closed_at := t.closed_at }

/-! ## Errors

The handlers raise `ValueError` with a message; a store-level failure
(`sqlite3` error) propagates untyped.  `McpError` keeps the three kinds
apart and records what each raised message contains. -/

/-- The failures a handler call can surface. -/
inductive McpError where
  | notFound (customer_id : Int)
  | validationError
  | storeError
deriving Repr, DecidableEq

/-- The message text of the `ValueError` each error kind is raised with
in the source (`storeError` propagates the underlying library's own
message, modelled as opaque text). -/
def McpError.message : McpError → String
  | .notFound cid => "Customer " ++ toString cid ++ " not found"
  | .validationError => "Priority must be 'low', 'medium', or 'high'"
  | .storeError => "sqlite3 error"

/-! ## Tool handlers -/

/-- `list_customers`: SELECT every customer row, map each to a `Customer`. -/
def list_customers (st : Store) : List Customer :=
  st.customers

/-- `get_customer`: SELECT one row by id (`fetchone` returns the first
matching row in store order); `ValueError` when none matches. -/
def get_customer (st : Store) (customer_id : Int) : Except McpError Customer :=
  match st.customers.find? (fun c => c.customer_id == customer_id) with
  | none => .error (.notFound customer_id)
  | some row => .ok row

/-- The per-invoice `paid` aggregate of `get_billing_summary`'s query:
`IFNULL(SUM(pay.amount), 0)` over the payments of that invoice whose
status is exactly `'successful'`. -/
def paidOf (st : Store) (invoice_id : Int) : ℚ :=
  ((st.payments.filter
      (fun p => p.invoice_id == invoice_id && p.status == "successful")).map
    PaymentRow.amount).sum

/-- The invoice rows `get_billing_summary` selects: those whose
`subscription_id` is among the subscriptions owned by the customer. -/
def customerInvoices (st : Store) (customer_id : Int) : List InvoiceRow :=
  st.invoices.filter (fun inv =>
    (st.subscriptions.filter (fun s => s.customer_id == customer_id)).any
      (fun s => s.subscription_id == inv.subscription_id))

/-- The dict built for one selected invoice row in `get_billing_summary`. -/
def mkInvoiceEntry (st : Store) (inv : InvoiceRow) : InvoiceEntry :=
  let paid := paidOf st inv.invoice_id
  { invoice_id := inv.invoice_id
    amount := inv.amount
    paid := paid
    outstanding := max (inv.amount - paid) 0
    due_date := inv.due_date }

/-- `get_billing_summary`: existence check, then the invoice/payment
aggregate query, then `total_due` as the sum of the outstandings. -/
def get_billing_summary (st : Store) (customer_id : Int) :
    Except McpError BillingSummary :=
  if (st.customers.find? (fun c => c.customer_id == customer_id)).isNone then
    .error (.notFound customer_id)
  else
    let invoices := (customerInvoices st customer_id).map (mkInvoiceEntry st)
    .ok { customer_id := customer_id
          total_due := (invoices.map InvoiceEntry.outstanding).sum
          invoices := invoices }

/-- `get_support_tickets`: the customer's ticket rows, with
`AND status != 'closed'` appended when `open_only`, ordered by
`opened_at` descending (lexicographic on the stored string). -/
def get_support_tickets (st : Store) (customer_id : Int)
    (open_only : Bool := false) : List SupportTicket :=
  let rows := st.tickets.filter (fun t =>
    t.customer_id == customer_id && (!open_only || t.status != "closed"))
  (rows.mergeSort (fun a b => b.opened_at ≤ a.opened_at)).map TicketRow.toTicket

/-- The rowid SQLite assigns to the inserted ticket (`cur.lastrowid`):
one more than the largest existing ticket rowid (`0` base for an empty
table), which is fresh with respect to every stored row. -/
def freshTicketId (st : Store) : Int :=
  (st.tickets.map TicketRow.ticket_id).foldr max 0 + 1

/-- The ticket row `create_support_ticket` inserts: the customer's first
subscription in store order (or NULL), category `'general'`, the
caller-supplied `opened_at`, NULL `closed_at`, status `'open'`, the
validated priority, the caller's subject and description, and the fixed
agent sentinel; its rowid is the one the store assigns. -/
def newTicketRow (st : Store) (customer_id : Int)
    (subject description priority now : String) : TicketRow :=
  { ticket_id := freshTicketId st
    customer_id := customer_id
    subscription_id := (st.subscriptions.find?
      (fun s => s.customer_id == customer_id)).map
        SubscriptionRow.subscription_id
    category := "general"
    opened_at := now
    closed_at := none
    status := "open"
    priority := priority
    subject := subject
    description := description
    cs_agent := "AI_Agent" }

/-- `create_support_ticket`: priority validation, customer existence
check, first-subscription lookup, the INSERT with its fixed column
values, commit, and the re-read of the inserted row by `lastrowid`.
`datetime.now().strftime(...)` is the handler's `opened_at` input,
passed in as `now`.  Returns the call's outcome together with the
post-call store state. -/
def create_support_ticket (st : Store) (customer_id : Int)
    (subject description : String) (priority : String) (now : String) :
    Except McpError SupportTicket × Store :=
  if !(["low", "medium", "high"].contains priority) then
    (.error .validationError, st)
  else
    match st.customers.find? (fun c => c.customer_id == customer_id) with
    | none => (.error (.notFound customer_id), st)
    | some _ =>
      let row := newTicketRow st customer_id subject description priority now
      let st' : Store := { st with tickets := st.tickets ++ [row] }
      match st'.tickets.find? (fun t => t.ticket_id == row.ticket_id) with
      | some r => (.ok r.toTicket, st')
      | none => (.error .storeError, st')

/-! ## Connection lifecycle instrumentation

The same handlers, instrumented with the store-interaction events they
perform: `get_db()` (open), each `db.execute(...)` (a query), and
`db.close()`.  A `db.execute` may also fail with an underlying store
error (`sqlite3` exception, not caught anywhere in the source); the
`failAt` argument selects which query call of the handler, counted from
`0` in program order, raises — `none` for a fault-free run.  The event
list records exactly the store interactions performed before the handler
returns or the exception propagates. -/

/-- A store-interaction event of a handler call. -/
inductive Ev where
  | openConn
  | runQuery
  | closeConn
deriving Repr, DecidableEq

/-- `list_customers`, instrumented: open, one SELECT, close. -/
def list_customers_tr (st : Store) (failAt : Option Nat) :
    Except McpError (List Customer) × List Ev :=
  if failAt == some 0 then
    (.error .storeError, [.openConn])
  else
    (.ok (list_customers st), [.openConn, .runQuery, .closeConn])

/-- `get_customer`, instrumented: open, the one SELECT, close — the
close happens before the not-found check, so the NotFound raise occurs
with the connection already released. -/
def get_customer_tr (st : Store) (customer_id : Int) (failAt : Option Nat) :
    Except McpError Customer × List Ev :=
  if failAt == some 0 then
    (.error .storeError, [.openConn])
  else
    (get_customer st customer_id, [.openConn, .runQuery, .closeConn])

/-- `get_support_tickets`, instrumented: open, the one SELECT (its text
depending on `open_only`), close. -/
def get_support_tickets_tr (st : Store) (customer_id : Int)
    (open_only : Bool) (failAt : Option Nat) :
    Except McpError (List SupportTicket) × List Ev :=
  if failAt == some 0 then
    (.error .storeError, [.openConn])
  else
    (.ok (get_support_tickets st customer_id open_only),
     [.openConn, .runQuery, .closeConn])

/-- `get_billing_summary`, instrumented: open; the existence SELECT
(query `0`); on the not-found branch an explicit close before the raise;
the invoice aggregate SELECT (query `1`); close. -/
def get_billing_summary_tr (st : Store) (customer_id : Int)
    (failAt : Option Nat) : Except McpError BillingSummary × List Ev :=
  if failAt == some 0 then
    (.error .storeError, [.openConn])
  else if (st.customers.find? (fun c => c.customer_id == customer_id)).isNone
    then
    (.error (.notFound customer_id), [.openConn, .runQuery, .closeConn])
  else if failAt == some 1 then
    (.error .storeError, [.openConn, .runQuery])
  else
    (get_billing_summary st customer_id,
     [.openConn, .runQuery, .runQuery, .closeConn])

/-- `create_support_ticket`, instrumented, also returning the post-call
store state.  The priority check precedes `get_db()`.  Queries in
program order: existence SELECT (`0`), subscription SELECT (`1`), the
INSERT (`2`, store unchanged when it raises, since the commit never
runs), and the re-read SELECT (`3`, which runs after the commit, so the
inserted row persists even though the call then fails). -/
def create_support_ticket_tr (st : Store) (customer_id : Int)
    (subject description priority now : String) (failAt : Option Nat) :
    (Except McpError SupportTicket × Store) × List Ev :=
  if !(["low", "medium", "high"].contains priority) then
    ((.error .validationError, st), [])
  else if failAt == some 0 then
    ((.error .storeError, st), [.openConn])
  else if (st.customers.find? (fun c => c.customer_id == customer_id)).isNone
    then
    ((.error (.notFound customer_id), st), [.openConn, .runQuery, .closeConn])
  else if failAt == some 1 then
    ((.error .storeError, st), [.openConn, .runQuery])
  else if failAt == some 2 then
    ((.error .storeError, st), [.openConn, .runQuery, .runQuery])
  else if failAt == some 3 then
    ((.error .storeError,
      { st with tickets := st.tickets ++
          [newTicketRow st customer_id subject description priority now] }),
     [.openConn, .runQuery, .runQuery, .runQuery])
  else
    (create_support_ticket st customer_id subject description priority now,
     [.openConn, .runQuery, .runQuery, .runQuery, .runQuery, .closeConn])

/-! ## Timestamp formatting

`opened_at` is produced by `datetime.now().strftime("%Y-%m-%d %H:%M:%S")`.
The wall clock is external input, modelled as an explicit `DateTime`
value; `strftime` is modelled digit-by-digit (zero-padded fields), which
agrees with the C `strftime` on every date `datetime.now()` can return
(year up to 9999). -/

/-- A wall-clock reading, as `datetime.now()` provides it. -/
structure DateTime where
  year : Nat
  month : Nat
  day : Nat
  hour : Nat
  minute : Nat
  second : Nat
deriving Repr, DecidableEq

/-- Zero-padded two-digit decimal rendering (`%m`, `%d`, `%H`, `%M`, `%S`). -/
def pad2 (n : Nat) : String :=
  String.mk [Nat.digitChar (n / 10 % 10), Nat.digitChar (n % 10)]

/-- Zero-padded four-digit decimal rendering (`%Y`). -/
def pad4 (n : Nat) : String :=
  String.mk [Nat.digitChar (n / 1000 % 10), Nat.digitChar (n / 100 % 10),
             Nat.digitChar (n / 10 % 10), Nat.digitChar (n % 10)]

/-- `strftime("%Y-%m-%d %H:%M:%S")` on a wall-clock reading. -/
def DateTime.strftime (dt : DateTime) : String :=
  pad4 dt.year ++ "-" ++ pad2 dt.month ++ "-" ++ pad2 dt.day ++ " " ++
    pad2 dt.hour ++ ":" ++ pad2 dt.minute ++ ":" ++ pad2 dt.second

/-- What the character at position `i` of a fixed-width
`YYYY-MM-DD HH:MM:SS` timestamp must be. -/
def timestampSlot (i : Nat) (c : Char) : Bool :=
  if i == 4 || i == 7 then c == '-'
  else if i == 10 then c == ' '
  else if i == 13 || i == 16 then c == ':'
  else c.isDigit

/-- Checks the characters from position `i` on against `timestampSlot`,
requiring the string to end at position 19. -/
def checkSlots : Nat → List Char → Bool
  | i, [] => i == 19
  | i, c :: cs => timestampSlot i c && checkSlots (i + 1) cs

/-- The fixed-width `YYYY-MM-DD HH:MM:SS` timestamp format. -/
def isTimestampFormat (s : String) : Bool :=
  checkSlots 0 s.data

/-! ## Request dispatch

The five tools as one dispatch function over the store state, for the
frame properties: which requests read the store and which mutate it. -/

/-- A tool invocation with its arguments. -/
inductive Request where
  | listCustomers
  | getCustomer (customer_id : Int)
  | getBillingSummary (customer_id : Int)
  | getSupportTickets (customer_id : Int) (open_only : Bool)
  | createSupportTicket (customer_id : Int)
      (subject description priority now : String)
deriving Repr, DecidableEq

/-- A tool result. -/
inductive Response where
  | customers (cs : List Customer)
  | customer (c : Customer)
  | billing (b : BillingSummary)
  | tickets (ts : List SupportTicket)
  | ticket (t : SupportTicket)
deriving Repr, DecidableEq

/-- Whether a request is one of the four lookup tools (as opposed to
ticket creation). -/
def Request.isLookup : Request → Bool
  | .createSupportTicket _ _ _ _ _ => false
  | _ => true

/-- Dispatch one tool call against the store, returning the outcome and
the post-call store state. -/
def step (st : Store) : Request → Except McpError Response × Store
  | .listCustomers => (.ok (.customers (list_customers st)), st)
  | .getCustomer cid => ((get_customer st cid).map .customer, st)
  | .getBillingSummary cid => ((get_billing_summary st cid).map .billing, st)
  | .getSupportTickets cid b => (.ok (.tickets (get_support_tickets st cid b)), st)
  | .createSupportTicket cid subj desc prio now =>
    let r := create_support_ticket st cid subj desc prio now
    (r.1.map .ticket, r.2)

/-! ## Helper lemmas -/

/-- The digit characters are decimal digits. -/
theorem isDigit_digitChar (m : Nat) (h : m < 10) :
    (Nat.digitChar m).isDigit = true := by
  interval_cases m <;> decide

/-- `strftime("%Y-%m-%d %H:%M:%S")` always yields a string in the
fixed-width timestamp format. -/
theorem strftime_isTimestampFormat (dt : DateTime) :
    isTimestampFormat dt.strftime = true := by
  have h : ∀ n : Nat, (Nat.digitChar (n % 10)).isDigit = true := fun n =>
    isDigit_digitChar _ (Nat.mod_lt _ (by norm_num))
  simp [DateTime.strftime, pad4, pad2, isTimestampFormat, String.data_append,
    checkSlots, timestampSlot, h]

/-- Every element of a list is bounded by its `foldr max`. -/
theorem le_foldr_max (x : Int) (l : List Int) (b : Int) (hx : x ∈ l) :
    x ≤ l.foldr max b := by
  induction l with
  | nil => cases hx
  | cons a t ih =>
    rcases List.mem_cons.mp hx with h | h
    · subst h; exact le_max_left _ _
    · exact le_trans (ih h) (le_max_right _ _)

/-- The rowid assigned to the inserted ticket is fresh: strictly larger
than every stored ticket's rowid. -/
theorem ticket_id_lt_fresh (st : Store) (t : TicketRow) (ht : t ∈ st.tickets) :
    t.ticket_id < freshTicketId st := by
  have hle := le_foldr_max t.ticket_id (st.tickets.map TicketRow.ticket_id) 0
    (List.mem_map_of_mem TicketRow.ticket_id ht)
  unfold freshTicketId
  omega

/-- Re-reading an appended row by a key no earlier row carries finds
exactly that row. -/
theorem find?_append_self (l : List TicketRow) (row : TicketRow)
    (h : ∀ t ∈ l, (t.ticket_id == row.ticket_id) = false) :
    (l ++ [row]).find? (fun t => t.ticket_id == row.ticket_id) = some row := by
  induction l with
  | nil => simp
  | cons a tl ih =>
    have ha := h a (List.mem_cons_self a tl)
    simp only [List.cons_append, List.find?_cons, ha]
    exact ih fun t ht => h t (List.mem_cons_of_mem _ ht)

/-- On a valid priority and an existing customer, `create_support_ticket`
returns the projection of the freshly inserted row and the store with
exactly that row appended to `SupportTickets`. -/
theorem create_support_ticket_ok (st : Store) (customer_id : Int)
    (subject description priority now : String)
    (hp : (["low", "medium", "high"].contains priority) = true)
    (hc : (st.customers.find? (fun c => c.customer_id == customer_id)).isSome
      = true) :
    create_support_ticket st customer_id subject description priority now =
      (.ok (newTicketRow st customer_id subject description priority now).toTicket,
       { st with tickets := st.tickets ++
           [newTicketRow st customer_id subject description priority now] }) := by
  rcases Option.isSome_iff_exists.mp hc with ⟨c, hcc⟩
  have hfind : ∀ t ∈ st.tickets ++
      [newTicketRow st customer_id subject description priority now],
      True := fun _ _ => trivial
  have hfresh : ∀ t ∈ st.tickets,
      (t.ticket_id ==
        (newTicketRow st customer_id subject description priority now).ticket_id)
        = false := by
    intro t ht
    have hlt := ticket_id_lt_fresh st t ht
    simp only [newTicketRow]
    exact beq_eq_false_iff_ne.mpr (by omega)
  simp only [create_support_ticket, hp, Bool.not_true, Bool.false_eq_true,
    if_false, hcc]
  rw [find?_append_self _ _ hfresh]

/-! ## A concrete sample store (for witnesses and counterexamples)

Customer 1 matches the spec's concrete billing scenario: invoice 100 of
amount 100 with one successful payment of 40 (and one failed payment
that must not count), invoice 101 of amount 50 with no payments. -/

/-- The sample customer row. -/
def cAlice : CustomerRow :=
  { customer_id := 1
    first_name := "Alice"
    last_name := "Ng"
    email := "alice@contoso.com"
    phone := none
    loyalty_level := "Gold" }

/-- A closed ticket of customer 1. -/
def tClosed : TicketRow :=
  { ticket_id := 7
    customer_id := 1
    subscription_id := some 10
    category := "general"
    opened_at := "2025-01-02 09:00:00"
    closed_at := some "2025-01-03 10:00:00"
    status := "closed"
    priority := "low"
    subject := "Old issue"
    description := "resolved"
    cs_agent := "AI_Agent" }

/-- An open ticket of customer 1, opened later than the closed one. -/
def tOpen : TicketRow :=
  { ticket_id := 8
    customer_id := 1
    subscription_id := some 10
    category := "general"
    opened_at := "2025-02-05 14:30:00"
    closed_at := none
    status := "open"
    priority := "high"
    subject := "Wifi down"
    description := "No connectivity"
    cs_agent := "AI_Agent" }

/-- A small concrete store instantiating the spec's billing scenario. -/
def sampleStore : Store :=
  { customers := [cAlice]
    subscriptions := [{ subscription_id := 10, customer_id := 1 }]
    invoices :=
      [{ invoice_id := 100, subscription_id := 10, amount := 100,
         due_date := "2025-01-31" },
       { invoice_id := 101, subscription_id := 10, amount := 50,
         due_date := "2025-02-28" }]
    payments :=
      [{ invoice_id := 100, amount := 40, status := "successful" },
       { invoice_id := 100, amount := 25, status := "failed" }]
    tickets := [tClosed, tOpen] }

/-! ## Claims -/

/-- C1: for every customer id present in the store, `get_billing_summary`
returns a `BillingSummary` whose `total_due` equals the sum over the
customer's invoices of `max(amount − paid, 0)`, where each invoice's
`paid` is the sum of its payments with status `'successful'` (0 when it
has none); `total_due` is 0 when the customer has no invoices, and that
is not an error. -/
theorem getBillingSummary_totalDue (st : Store) (customer_id : Int)
    (c : Customer)
    (hc : st.customers.find? (fun x => x.customer_id == customer_id) = some c) :
    ∃ bs : BillingSummary,
      get_billing_summary st customer_id = .ok bs ∧
      bs.total_due =
        ((customerInvoices st customer_id).map (fun inv =>
          max (inv.amount -
            ((st.payments.filter (fun p =>
                p.invoice_id == inv.invoice_id &&
                p.status == "successful")).map PaymentRow.amount).sum) 0)).sum ∧
      (customerInvoices st customer_id = [] → bs.total_due = 0) := by
  have h1 : (st.customers.find?
      (fun x => x.customer_id == customer_id)).isNone = false := by
    simp [hc]
  refine ⟨{ customer_id := customer_id
            total_due := (((customerInvoices st customer_id).map
              (mkInvoiceEntry st)).map InvoiceEntry.outstanding).sum
            invoices := (customerInvoices st customer_id).map
              (mkInvoiceEntry st) }, ?_, ?_, ?_⟩
  · simp only [get_billing_summary, h1, Bool.false_eq_true, if_false]
  · simp only [List.map_map]
    rfl
  · intro h
    simp [h]

/-- C1 witness: the spec's concrete scenario on the sample store—invoice
100 owes 60 (amount 100, successfully paid 40), invoice 101 owes 50. -/
theorem getBillingSummary_totalDue_witness :
    ∃ bs : BillingSummary,
      get_billing_summary sampleStore 1 = .ok bs ∧
      bs.total_due =
        ((customerInvoices sampleStore 1).map (fun inv =>
          max (inv.amount -
            ((sampleStore.payments.filter (fun p =>
                p.invoice_id == inv.invoice_id &&
                p.status == "successful")).map PaymentRow.amount).sum) 0)).sum ∧
      (customerInvoices sampleStore 1 = [] → bs.total_due = 0) :=
  getBillingSummary_totalDue sampleStore 1 cAlice (by decide)

/-- C2: for a customer id with no matching row, `get_customer` and
`get_billing_summary` fail with the NotFound error carrying that id,
while `get_support_tickets` (either `open_only`) returns the empty
sequence; for an existing id, `get_customer` returns that one customer.
The store is assumed referentially intact: every ticket's customer
exists (spec §3: a ticket belongs to one customer). -/
theorem lookup_notFound_asymmetry (st : Store) (customer_id : Int)
    (hwf : ∀ t ∈ st.tickets, ∃ c ∈ st.customers,
      c.customer_id = t.customer_id) :
    (st.customers.find? (fun c => c.customer_id == customer_id) = none →
      get_customer st customer_id = .error (.notFound customer_id) ∧
      get_billing_summary st customer_id = .error (.notFound customer_id) ∧
      ∀ b : Bool, get_support_tickets st customer_id b = []) ∧
    (∀ c : Customer,
      st.customers.find? (fun x => x.customer_id == customer_id) = some c →
      get_customer st customer_id = .ok c) := by
  constructor
  · intro hn
    refine ⟨?_, ?_, ?_⟩
    · simp [get_customer, hn]
    · simp [get_billing_summary, hn]
    · intro b
      have hfilter : st.tickets.filter (fun t =>
          t.customer_id == customer_id && (!b || t.status != "closed")) = [] := by
        rw [List.filter_eq_nil_iff]
        intro t ht
        rcases hwf t ht with ⟨c, hcmem, hcid⟩
        have h2 := List.find?_eq_none.mp hn c hcmem
        simp only [beq_iff_eq] at h2
        have hne : t.customer_id ≠ customer_id := by
          rw [← hcid]; exact h2
        simp [hne]
      simp [get_support_tickets, hfilter]
  · intro c hc
    simp [get_customer, hc]

/-- C2 witness: id 99 is absent from the sample store (errors carry 99,
tickets come back empty); id 1 is present and returned. -/
theorem lookup_notFound_asymmetry_witness :
    (sampleStore.customers.find? (fun c => c.customer_id == 99) = none →
      get_customer sampleStore 99 = .error (.notFound 99) ∧
      get_billing_summary sampleStore 99 = .error (.notFound 99) ∧
      ∀ b : Bool, get_support_tickets sampleStore 99 b = []) ∧
    (∀ c : Customer,
      sampleStore.customers.find? (fun x => x.customer_id == 99) = some c →
      get_customer sampleStore 99 = .ok c) :=
  lookup_notFound_asymmetry sampleStore 99 (by decide)

/-- C3: a call with a priority outside {'low','medium','high'} fails
with the ValidationError, the store state is unchanged, and no store
interaction at all happens (no connection opened, no query issued). -/
theorem create_invalid_priority_rejected (st : Store) (customer_id : Int)
    (subject description priority now : String) (failAt : Option Nat)
    (hp : (["low", "medium", "high"].contains priority) = false) :
    create_support_ticket st customer_id subject description priority now =
      (.error .validationError, st) ∧
    create_support_ticket_tr st customer_id subject description priority now
      failAt = ((.error .validationError, st), []) := by
  constructor
  · simp only [create_support_ticket, hp, Bool.not_false, if_true]
  · simp only [create_support_ticket_tr, hp, Bool.not_false, if_true]

/-- C3 witness: priority "urgent" on the sample store. -/
theorem create_invalid_priority_rejected_witness :
    create_support_ticket sampleStore 1 "x" "y" "urgent" "2025-03-01 12:00:00" =
      (.error .validationError, sampleStore) ∧
    create_support_ticket_tr sampleStore 1 "x" "y" "urgent"
      "2025-03-01 12:00:00" none = ((.error .validationError, sampleStore), []) :=
  create_invalid_priority_rejected sampleStore 1 "x" "y" "urgent"
    "2025-03-01 12:00:00" none (by decide)

/-- C4: a successful `create_support_ticket` (valid priority, existing
customer) returns, and appends as the single inserted row, a ticket with
status `'open'`, null `closed_at`, the argument priority (one of the
three allowed values), category `'general'`, the customer's first
subscription in store order (or null), and an `opened_at` in the
fixed-width `YYYY-MM-DD HH:MM:SS` format. -/
theorem create_success_shape (st : Store) (customer_id : Int)
    (subject description priority : String) (dt : DateTime) (c : Customer)
    (hp : (["low", "medium", "high"].contains priority) = true)
    (hc : st.customers.find? (fun x => x.customer_id == customer_id) = some c) :
    ∃ t : SupportTicket,
      create_support_ticket st customer_id subject description priority
        dt.strftime =
        (.ok t, { st with tickets := st.tickets ++
          [newTicketRow st customer_id subject description priority
            dt.strftime] }) ∧
      t = (newTicketRow st customer_id subject description priority
            dt.strftime).toTicket ∧
      t.status = "open" ∧
      t.closed_at = none ∧
      t.priority = priority ∧
      (priority = "low" ∨ priority = "medium" ∨ priority = "high") ∧
      (newTicketRow st customer_id subject description priority
        dt.strftime).category = "general" ∧
      (newTicketRow st customer_id subject description priority
        dt.strftime).subscription_id =
        (st.subscriptions.find? (fun s => s.customer_id == customer_id)).map
          SubscriptionRow.subscription_id ∧
      t.opened_at = dt.strftime ∧
      isTimestampFormat t.opened_at = true := by
  have hok := create_support_ticket_ok st customer_id subject description
    priority dt.strftime hp (by simp [hc])
  refine ⟨_, hok, rfl, rfl, rfl, rfl, ?_, rfl, rfl, rfl, ?_⟩
  · simpa using hp
  · exact strftime_isTimestampFormat dt

/-- C4 witness: priority "high" for customer 1 of the sample store at a
concrete wall-clock reading. -/
theorem create_success_shape_witness :
    ∃ t : SupportTicket,
      create_support_ticket sampleStore 1 "Wifi down" "No connectivity" "high"
        (DateTime.strftime ⟨2025, 3, 14, 9, 26, 53⟩) =
        (.ok t, { sampleStore with tickets := sampleStore.tickets ++
          [newTicketRow sampleStore 1 "Wifi down" "No connectivity" "high"
            (DateTime.strftime ⟨2025, 3, 14, 9, 26, 53⟩)] }) ∧
      t = (newTicketRow sampleStore 1 "Wifi down" "No connectivity" "high"
            (DateTime.strftime ⟨2025, 3, 14, 9, 26, 53⟩)).toTicket ∧
      t.status = "open" ∧
      t.closed_at = none ∧
      t.priority = "high" ∧
      ("high" = "low" ∨ "high" = "medium" ∨ ("high" : String) = "high") ∧
      (newTicketRow sampleStore 1 "Wifi down" "No connectivity" "high"
        (DateTime.strftime ⟨2025, 3, 14, 9, 26, 53⟩)).category = "general" ∧
      (newTicketRow sampleStore 1 "Wifi down" "No connectivity" "high"
        (DateTime.strftime ⟨2025, 3, 14, 9, 26, 53⟩)).subscription_id =
        (sampleStore.subscriptions.find? (fun s => s.customer_id == 1)).map
          SubscriptionRow.subscription_id ∧
      t.opened_at = DateTime.strftime ⟨2025, 3, 14, 9, 26, 53⟩ ∧
      isTimestampFormat t.opened_at = true :=
  create_success_shape sampleStore 1 "Wifi down" "No connectivity" "high"
    ⟨2025, 3, 14, 9, 26, 53⟩ cAlice (by decide) (by decide)

/-- C5: with `open_only=true` the result is exactly the customer's
tickets whose status is not the string `'closed'` (any other status,
the empty string included, counts as open); with `open_only=false` it is
all the customer's tickets; in both cases ordered by `opened_at`
descending under the lexicographic string order. -/
theorem tickets_open_filter_sorted (st : Store) (customer_id : Int) :
    (get_support_tickets st customer_id true).Perm
      ((st.tickets.filter (fun t =>
        t.customer_id == customer_id && t.status != "closed")).map
        TicketRow.toTicket) ∧
    (get_support_tickets st customer_id false).Perm
      ((st.tickets.filter (fun t => t.customer_id == customer_id)).map
        TicketRow.toTicket) ∧
    ∀ b : Bool, (get_support_tickets st customer_id b).Pairwise
      (fun x y => y.opened_at ≤ x.opened_at) := by
  refine ⟨?_, ?_, ?_⟩
  · exact (List.mergeSort_perm _ _).map _
  · have hf : st.tickets.filter (fun t =>
        t.customer_id == customer_id && (!false || t.status != "closed")) =
        st.tickets.filter (fun t => t.customer_id == customer_id) := by
      apply List.filter_congr
      intro a _
      simp
    simp only [get_support_tickets, hf]
    exact (List.mergeSort_perm _ _).map _
  · intro b
    have hs := @List.sorted_mergeSort TicketRow
      (fun x y : TicketRow => decide (y.opened_at ≤ x.opened_at))
      (fun x y z hxy hyz => by
        simp only [decide_eq_true_eq] at *
        exact le_trans hyz hxy)
      (fun x y => by
        simp only [Bool.or_eq_true, decide_eq_true_eq]
        exact le_total y.opened_at x.opened_at)
      (st.tickets.filter (fun t =>
        t.customer_id == customer_id && (!b || t.status != "closed")))
    refine hs.map TicketRow.toTicket ?_
    intro x y hxy
    simp only [decide_eq_true_eq] at hxy
    exact hxy

/-- C6: a valid-priority call for an absent customer fails with the
NotFound error carrying the id and leaves the store state exactly as it
was — no row is inserted. -/
theorem create_customer_notFound (st : Store) (customer_id : Int)
    (subject description priority now : String)
    (hp : (["low", "medium", "high"].contains priority) = true)
    (hc : st.customers.find? (fun c => c.customer_id == customer_id) = none) :
    create_support_ticket st customer_id subject description priority now =
      (.error (.notFound customer_id), st) := by
  simp only [create_support_ticket, hp, Bool.not_true, Bool.false_eq_true,
    if_false, hc]

/-- C6 witness: customer 99 is absent from the sample store. -/
theorem create_customer_notFound_witness :
    create_support_ticket sampleStore 99 "x" "y" "low" "2025-03-01 12:00:00" =
      (.error (.notFound 99), sampleStore) :=
  create_customer_notFound sampleStore 99 "x" "y" "low" "2025-03-01 12:00:00"
    (by decide) (by decide)

/-- C7 counterexample: when the very first query of
`get_billing_summary` fails at the store level (an uncaught `sqlite3`
error — nothing in the handler is wrapped in try/finally), the error
propagates with the connection opened and never closed. -/
theorem conn_leak_on_query_failure :
    (get_billing_summary_tr sampleStore 1 (some 0)).1 =
      .error .storeError ∧
    (get_billing_summary_tr sampleStore 1 (some 0)).2 = [.openConn] ∧
    (get_billing_summary_tr sampleStore 1 (some 0)).2.count Ev.closeConn = 0 :=
  ⟨rfl, rfl, rfl⟩

/-- C7 amended: on every run of any of the five handlers in which no
store-level query failure occurs — success, the NotFound raise, and the
ValidationError raise included — the handler closes every connection it
opens (the explicit raise paths of `get_billing_summary` and
`create_support_ticket` call close before raising, and `get_customer`
closes before its not-found check); only an uncaught query failure can
leak the connection. -/
theorem conn_balanced_fault_free (st : Store) (customer_id : Int)
    (open_only : Bool) (subject description priority now : String) :
    (list_customers_tr st none).2.count Ev.closeConn =
      (list_customers_tr st none).2.count Ev.openConn ∧
    (get_customer_tr st customer_id none).2.count Ev.closeConn =
      (get_customer_tr st customer_id none).2.count Ev.openConn ∧
    (get_support_tickets_tr st customer_id open_only none).2.count
      Ev.closeConn =
      (get_support_tickets_tr st customer_id open_only none).2.count
        Ev.openConn ∧
    (get_billing_summary_tr st customer_id none).2.count Ev.closeConn =
      (get_billing_summary_tr st customer_id none).2.count Ev.openConn ∧
    (create_support_ticket_tr st customer_id subject description priority now
      none).2.count Ev.closeConn =
      (create_support_ticket_tr st customer_id subject description priority
        now none).2.count Ev.openConn := by
  refine ⟨rfl, rfl, rfl, ?_, ?_⟩
  · cases h : (st.customers.find?
        (fun c => c.customer_id == customer_id)).isNone with
    | true => simp [get_billing_summary_tr, h]
    | false => simp [get_billing_summary_tr, h]
  · cases hp : (["low", "medium", "high"].contains priority) with
    | false =>
      simp only [create_support_ticket_tr, hp, Bool.not_false, if_true]
      rfl
    | true =>
      cases h : (st.customers.find?
          (fun c => c.customer_id == customer_id)).isNone with
      | true =>
        simp only [create_support_ticket_tr, hp, Bool.not_true,
          Bool.false_eq_true, if_false, h]
        simp
      | false =>
        simp only [create_support_ticket_tr, hp, Bool.not_true,
          Bool.false_eq_true, if_false, h]
        simp

/-- C8: the four lookup tools leave the store state unchanged on every
input; ticket creation either leaves it unchanged (on a failed call) or
appends exactly one row to `SupportTickets`. -/
theorem lookups_frame (st : Store) (req : Request) :
    (req.isLookup = true → (step st req).2 = st) ∧
    (req.isLookup = false →
      (step st req).2 = st ∨
      ∃ row : TicketRow, (step st req).2 =
        { st with tickets := st.tickets ++ [row] }) := by
  cases req with
  | listCustomers => exact ⟨fun _ => rfl, fun h => nomatch h⟩
  | getCustomer cid => exact ⟨fun _ => rfl, fun h => nomatch h⟩
  | getBillingSummary cid => exact ⟨fun _ => rfl, fun h => nomatch h⟩
  | getSupportTickets cid b => exact ⟨fun _ => rfl, fun h => nomatch h⟩
  | createSupportTicket cid subj desc prio now =>
    refine ⟨fun h => (nomatch h), fun _ => ?_⟩
    show (create_support_ticket st cid subj desc prio now).2 = st ∨
      ∃ row : TicketRow, (create_support_ticket st cid subj desc prio now).2 =
        { st with tickets := st.tickets ++ [row] }
    by_cases hp : (["low", "medium", "high"].contains prio) = true
    · cases hc : st.customers.find? (fun c => c.customer_id == cid) with
      | none =>
        left
        simp only [create_support_ticket, hp, Bool.not_true,
          Bool.false_eq_true, if_false, hc]
      | some c =>
        right
        refine ⟨newTicketRow st cid subj desc prio now, ?_⟩
        have hok := create_support_ticket_ok st cid subj desc prio now hp
          (by simp [hc])
        rw [hok]
    · left
      have hp' : (["low", "medium", "high"].contains prio) = false :=
        Bool.not_eq_true _ ▸ Bool.eq_false_iff.mpr hp
      simp only [create_support_ticket, hp', Bool.not_false, if_true]

/-- C8 witness: a lookup on the sample store passes it through; the
create call appends one row. -/
theorem lookups_frame_witness :
    (step sampleStore .listCustomers).2 = sampleStore ∧
    ((step sampleStore
        (.createSupportTicket 1 "s" "d" "low" "2025-03-01 12:00:00")).2 =
        sampleStore ∨
      ∃ row : TicketRow,
        (step sampleStore
          (.createSupportTicket 1 "s" "d" "low" "2025-03-01 12:00:00")).2 =
          { sampleStore with tickets := sampleStore.tickets ++ [row] }) :=
  ⟨(lookups_frame sampleStore .listCustomers).1 (by decide),
   (lookups_frame sampleStore
     (.createSupportTicket 1 "s" "d" "low" "2025-03-01 12:00:00")).2
     (by decide)⟩

/-- C9 counterexample: two calls with different invalid priorities
("urgent" and "bogus") raise one and the same error value, whose message
is the fixed string naming the allowed values — so the validation
failure does not carry the offending priority value. -/
theorem validation_error_carries_no_value :
    (create_support_ticket sampleStore 1 "s" "d" "urgent" "t").1 =
      (create_support_ticket sampleStore 1 "s" "d" "bogus" "t").1 ∧
    (create_support_ticket sampleStore 1 "s" "d" "urgent" "t").1 =
      .error .validationError ∧
    McpError.validationError.message =
      "Priority must be 'low', 'medium', or 'high'" :=
  ⟨rfl, rfl, rfl⟩

/-- C9 amended: every failure is a typed failure and the kinds are
distinguishable; the NotFound error carries the requested customer id in
its message, while the ValidationError for a bad priority carries only
the fixed message naming the three allowed values, not the offending
priority. -/
theorem error_kinds_and_context (st : Store) (customer_id : Int)
    (subject description priority now : String)
    (hc : st.customers.find? (fun c => c.customer_id == customer_id) = none)
    (hp : (["low", "medium", "high"].contains priority) = false) :
    get_customer st customer_id = .error (.notFound customer_id) ∧
    (McpError.notFound customer_id).message =
      "Customer " ++ toString customer_id ++ " not found" ∧
    (create_support_ticket st customer_id subject description priority now).1 =
      .error .validationError ∧
    McpError.validationError.message =
      "Priority must be 'low', 'medium', or 'high'" ∧
    McpError.notFound customer_id ≠ McpError.validationError := by
  refine ⟨?_, rfl, ?_, rfl, ?_⟩
  · simp [get_customer, hc]
  · simp only [create_support_ticket, hp, Bool.not_false, if_true]
  · intro h
    exact McpError.noConfusion h

/-- C9 amended witness: absent customer 99 and invalid priority
"urgent" on the sample store. -/
theorem error_kinds_and_context_witness :
    get_customer sampleStore 99 = .error (.notFound 99) ∧
    (McpError.notFound 99).message =
      "Customer " ++ toString (99 : Int) ++ " not found" ∧
    (create_support_ticket sampleStore 99 "s" "d" "urgent" "t").1 =
      .error .validationError ∧
    McpError.validationError.message =
      "Priority must be 'low', 'medium', or 'high'" ∧
    McpError.notFound 99 ≠ McpError.validationError :=
  error_kinds_and_context sampleStore 99 "s" "d" "urgent" "t"
    (by decide) (by decide)

/-- C10: the priority check strictly precedes the customer-existence
check: an invalid priority yields the ValidationError on every store —
in particular also when the customer id is absent — never the NotFound
error, and the call never opens a store connection (it performs no
store interaction at all). -/
theorem priority_check_precedes_existence (st : Store) (customer_id : Int)
    (subject description priority now : String) (failAt : Option Nat)
    (hp : (["low", "medium", "high"].contains priority) = false) :
    (create_support_ticket st customer_id subject description priority now).1 =
      .error .validationError ∧
    (create_support_ticket st customer_id subject description priority now).1 ≠
      .error (.notFound customer_id) ∧
    (create_support_ticket_tr st customer_id subject description priority now
      failAt).2 = [] ∧
    Ev.openConn ∉ (create_support_ticket_tr st customer_id subject description
      priority now failAt).2 := by
  have h1 : (create_support_ticket st customer_id subject description priority
      now).1 = .error .validationError := by
    simp only [create_support_ticket, hp, Bool.not_false, if_true]
  have h2 : (create_support_ticket_tr st customer_id subject description
      priority now failAt).2 = [] := by
    simp only [create_support_ticket_tr, hp, Bool.not_false, if_true]
  refine ⟨h1, ?_, h2, ?_⟩
  · rw [h1]
    intro h
    exact McpError.noConfusion (Except.error.inj h)
  · rw [h2]
    exact List.not_mem_nil _

/-- C10 witness: priority "urgent" with the absent customer 99 still
reports the ValidationError and opens no connection. -/
theorem priority_check_precedes_existence_witness :
    (create_support_ticket sampleStore 99 "s" "d" "urgent" "t").1 =
      .error .validationError ∧
    (create_support_ticket sampleStore 99 "s" "d" "urgent" "t").1 ≠
      .error (.notFound 99) ∧
    (create_support_ticket_tr sampleStore 99 "s" "d" "urgent" "t" none).2 =
      [] ∧
    Ev.openConn ∉ (create_support_ticket_tr sampleStore 99 "s" "d" "urgent"
      "t" none).2 :=
  priority_check_precedes_existence sampleStore 99 "s" "d" "urgent" "t" none
    (by decide)
